import Mathlib

/-!
Verification of the ROSL Python wrapper (pyrosl.py).

The wrapper validates its configuration, copies and layout-converts the
input matrix, allocates the output buffers D, alpha, E and calls the
precompiled native routine pyROSL.  We embed the wrapper shallowly:

* numpy arrays become records of shape, Fortran flag and entry list
  (entries as rationals; no arithmetic is performed on them by the wrapper);
* array objects live in an explicit heap, so that copying versus aliasing
  and mutation by the native call are observable;
* the native routine is a parameter: it may report any integer R and write
  any data through the four array pointers it receives, but it cannot touch
  arrays it was not given and cannot change array metadata;
* Python exceptions become an Except result; messages printed and the
  allocation of output buffers and the native call are recorded as events.

Python 2 semantics that matter here and are embedded faithfully:
* tuple comparison (sampling > x.shape) is lexicographic;
* adding a list to a string (the invalid-method error message) raises
  TypeError, so the intended ValueError is never constructed;
* membership (-1 in sampling) checks both components.
-/

/-- A numpy array: shape (rows, cols), whether np.isfortran holds of it,
and its entries (layout-abstracted). -/
structure NpArray where
  shape : Nat × Nat
  fortran : Bool
  data : List ℚ
deriving DecidableEq

instance : Inhabited NpArray := ⟨⟨(0, 0), true, []⟩⟩

/-- Heap of array objects; a reference is an index into the list. -/
structure Heap where
  arrays : List NpArray
deriving DecidableEq

/-- Dereference (out-of-range yields the default array). -/
def Heap.get (h : Heap) (r : Nat) : NpArray :=
  h.arrays.getD r default

/-- Allocate a fresh array object, returning the new heap and its reference. -/
def Heap.alloc (h : Heap) (a : NpArray) : Heap × Nat :=
  (⟨h.arrays ++ [a]⟩, h.arrays.length)

/-- Overwrite the entries of the array at r (what a write through a ctypes
pointer can do: data changes, shape and order metadata do not). -/
def Heap.writeData (h : Heap) (r : Nat) (d : List ℚ) : Heap :=
  ⟨h.arrays.set r { h.arrays.getD r default with data := d }⟩

/-- Python exceptions raised by the wrapper. -/
inductive PyError where
  | valueError : String → PyError
  | typeError : String → PyError
deriving DecidableEq

deriving instance DecidableEq for Except

/-- Observable events of a wrapper call: a printed message, the allocation
of one output buffer (np.zeros for D, alpha or E), the native call. -/
inductive Event where
  | message : String → Event
  | allocOutput : Event
  | nativeCall : Event
deriving DecidableEq

/-- Python 2 comparison of two int pairs: lexicographic. -/
def pyTupleGt (a b : Int × Int) : Bool :=
  decide (b.1 < a.1) || (decide (a.1 = b.1) && decide (b.2 < a.2))

/-- The shape of an array as a pair of Python ints. -/
def intShape (a : NpArray) : Int × Int :=
  ((a.shape.1 : Int), (a.shape.2 : Int))

/-- np.copy with default order (K): an identical array object, newly
allocated by the caller of this function. -/
def npCopy (a : NpArray) : NpArray := a

/-- np.asfortranarray: same shape and entries, Fortran-ordered. -/
def npAsFortran (a : NpArray) : NpArray := { a with fortran := true }

/-- np.isfortran. -/
def npIsFortran (a : NpArray) : Bool := a.fortran

/-- np.zeros((n, m), dtype=np.double, order=F). -/
def npZerosF (n m : Nat) : NpArray :=
  ⟨(n, m), true, List.replicate (n * m) 0⟩

/-- Python 2: adding a list to a string raises TypeError (the left operand
does not accept a list and list has no reflected string addition). -/
def pyStrPlusList (_s : String) (_l : List String) : Except PyError String :=
  Except.error (PyError.typeError "cannot concatenate str and list objects")

/-- The modes dictionary of ROSL.__init__. -/
def modes : List (String × Int) := [("full", 0), ("subsample", 1)]

/-- Dictionary lookup. -/
def modesLookup (m : String) : Option Int :=
  modes.lookup m

/-- The state of a successfully constructed ROSL object (the attributes
set by ROSL.__init__). -/
structure ROSLState where
  method : String
  mode : Int
  sampling : Int × Int
  rank : Int
  reg : ℚ
  tol : ℚ
  iters : Int
  verbose : Bool
deriving DecidableEq

/-- ROSL.__init__: checks the method string (the invalid branch evaluates
a string-plus-list expression, which raises TypeError before the intended
ValueError can be constructed), then rejects subsample mode with an unset
sampling tuple (-1 in sampling), then stores the attributes. -/
def ROSL.init (method : String) (sampling : Int × Int) (rank : Int)
    (reg tol : ℚ) (iters : Int) (verbose : Bool) : Except PyError ROSLState :=
  match modesLookup method with
  | none =>
      match pyStrPlusList "method must be one of " ["full", "subsample"] with
      | Except.error e => Except.error e
      | Except.ok msg => Except.error (PyError.valueError msg)
  | some mode =>
      if method = "subsample" && (sampling.1 == -1 || sampling.2 == -1) then
        Except.error (PyError.valueError
          "method is set to subsample but sampling is not set.")
      else
        Except.ok ⟨method, mode, sampling, rank, reg, tol, iters, verbose⟩

/-- The native pyROSL routine, abstract: given the four arrays (by value:
it sees their contents), the dimensions and the scalar parameters in the
order of the ctypes signature, it returns its int result R and the data it
writes back through the four array pointers. -/
structure NativeROSL where
  run : NpArray → NpArray → NpArray → NpArray → Nat → Nat → Int → ℚ → ℚ →
        Int → Int → Int → Int → Bool →
        Int × List ℚ × List ℚ × List ℚ × List ℚ

/-- The conversion step of ROSL._check_array: if np.isfortran is False of
the working array, print the message and rebind it to np.asfortranarray of
it (a fresh Fortran-ordered object); otherwise leave it as it is. -/
def fortranConvert (h1 : Heap) (r1 : Nat) : Heap × List Event × Nat :=
  if npIsFortran (h1.get r1) = false then
    ((h1.alloc (npAsFortran (h1.get r1))).1,
     [Event.message "Array must be in Fortran-order. Converting now."],
     (h1.alloc (npAsFortran (h1.get r1))).2)
  else
    (h1, [], r1)

/-- ROSL._check_array: copy X, convert the copy to Fortran order if needed
(printing a message), then raise ValueError if sampling compares greater
than the shape (Python 2 lexicographic tuple comparison). -/
def ROSL._check_array (self : ROSLState) (h : Heap) (xRef : Nat) :
    Heap × List Event × Except PyError Nat :=
  let h1 := (h.alloc (npCopy (h.get xRef))).1
  let r1 := (h.alloc (npCopy (h.get xRef))).2
  let conv := fortranConvert h1 r1
  if pyTupleGt self.sampling (intShape (conv.1.get conv.2.2)) then
    (conv.1, conv.2.1,
     Except.error (PyError.valueError
       "sampling is greater than the dimensions of X"))
  else
    (conv.1, conv.2.1, Except.ok conv.2.2)

/-- ROSL.fit_transform: check the array, allocate the zero output buffers
D, alpha, E, call the native routine (which may write through all four
array pointers and returns R), and return D, alpha, E.  The native result
R is bound but not part of the returned value, exactly as in the source. -/
def ROSL.fit_transform (pyrosl : NativeROSL) (self : ROSLState) (h : Heap)
    (xRef : Nat) : Heap × List Event × Except PyError (Nat × Nat × Nat) :=
  match ROSL._check_array self h xRef with
  | (h1, evs, Except.error e) => (h1, evs, Except.error e)
  | (h1, evs, Except.ok xr) =>
      let n := (h1.get xr).shape.1
      let f := (h1.get xr).shape.2
      let h2 := (h1.alloc (npZerosF n f)).1
      let dRef := (h1.alloc (npZerosF n f)).2
      let h3 := (h2.alloc (npZerosF n f)).1
      let aRef := (h2.alloc (npZerosF n f)).2
      let h4 := (h3.alloc (npZerosF n f)).1
      let eRef := (h3.alloc (npZerosF n f)).2
      let out := pyrosl.run (h4.get xr) (h4.get dRef) (h4.get aRef)
        (h4.get eRef) n f self.rank self.reg self.tol self.iters self.mode
        self.sampling.1 self.sampling.2 self.verbose
      let h5 := (((h4.writeData xr out.2.1).writeData dRef
        out.2.2.1).writeData aRef out.2.2.2.1).writeData eRef out.2.2.2.2
      (h5, evs ++ [Event.allocOutput, Event.allocOutput, Event.allocOutput,
        Event.nativeCall], Except.ok (dRef, aRef, eRef))

/-- Whether an Except is an error. -/
def exceptIsError {ε α : Type} : Except ε α → Bool
  | Except.error _ => true
  | Except.ok _ => false

/-- A native routine that writes nothing (it reports the data it was
handed back unchanged) and returns the integer r. -/
def nativeReport (r : Int) : NativeROSL :=
  ⟨fun x d a e _ _ _ _ _ _ _ _ _ _ => (r, x.data, d.data, a.data, e.data)⟩

section ListLemmas

variable {α : Type} [Inhabited α]

lemma getD_append_left (l t : List α) :
    ∀ n : Nat, n < l.length → (l ++ t).getD n default = l.getD n default := by
  induction l with
  | nil => intro n hn; simp at hn
  | cons a l ih =>
      intro n hn
      cases n with
      | zero => rfl
      | succ m => exact ih m (Nat.lt_of_succ_lt_succ hn)

lemma getD_append_self (l : List α) (a : α) :
    (l ++ [a]).getD l.length default = a := by
  induction l with
  | nil => rfl
  | cons b l ih => exact ih

lemma getD_set_ne (l : List α) :
    ∀ (i n : Nat) (a : α), n ≠ i →
      (l.set i a).getD n default = l.getD n default := by
  induction l with
  | nil => intro i n a _; rfl
  | cons b l ih =>
      intro i n a hne
      cases i with
      | zero =>
          cases n with
          | zero => exact absurd rfl hne
          | succ m => rfl
      | succ j =>
          cases n with
          | zero => rfl
          | succ m => exact ih j m a (fun hh => hne (by rw [hh]))

end ListLemmas

/-- Converting to Fortran order does not change the shape. -/
lemma intShape_asFortran (a : NpArray) : intShape (npAsFortran a) = intShape a := rfl

/-- The freshly allocated copy of X dereferences to X itself. -/
lemma get_alloc_copy (h : Heap) (xRef : Nat) :
    (h.alloc (npCopy (h.get xRef))).1.get (h.alloc (npCopy (h.get xRef))).2 =
      h.get xRef := by
  simp [Heap.alloc, Heap.get, npCopy, getD_append_self]

lemma fortranConvert_of_false (h1 : Heap) (r1 : Nat)
    (hf : npIsFortran (h1.get r1) = false) :
    fortranConvert h1 r1 =
      ((h1.alloc (npAsFortran (h1.get r1))).1,
       [Event.message "Array must be in Fortran-order. Converting now."],
       (h1.alloc (npAsFortran (h1.get r1))).2) := by
  simp [fortranConvert, hf]

lemma fortranConvert_of_true (h1 : Heap) (r1 : Nat)
    (hf : npIsFortran (h1.get r1) = true) :
    fortranConvert h1 r1 = (h1, [], r1) := by
  simp [fortranConvert, hf]


lemma get_alloc_self (h : Heap) (a : NpArray) :
    (h.alloc a).1.get (h.alloc a).2 = a := by
  simp [Heap.alloc, Heap.get, getD_append_self]

lemma Heap.get_alloc_of_lt (h : Heap) (a : NpArray) (n : Nat)
    (hn : n < h.arrays.length) :
    (h.alloc a).1.get n = h.get n := by
  show (h.arrays ++ [a]).getD n default = h.arrays.getD n default
  exact getD_append_left _ _ n hn

lemma Heap.get_writeData_ne (h : Heap) (r s : Nat) (d : List ℚ)
    (hne : s ≠ r) :
    (h.writeData r d).get s = h.get s := by
  show (h.arrays.set r _).getD s default = h.arrays.getD s default
  exact getD_set_ne _ _ _ _ hne

lemma Heap.alloc_ref (h : Heap) (a : NpArray) :
    (h.alloc a).2 = h.arrays.length := rfl

lemma Heap.alloc_length (h : Heap) (a : NpArray) :
    (h.alloc a).1.arrays.length = h.arrays.length + 1 := by
  simp [Heap.alloc]

/-- The array the sampling comparison of _check_array looks at has the
shape of the original X: np.copy and np.asfortranarray preserve shapes. -/
lemma converted_intShape (h : Heap) (xRef : Nat) :
    intShape ((fortranConvert (h.alloc (npCopy (h.get xRef))).1
        (h.alloc (npCopy (h.get xRef))).2).1.get
      (fortranConvert (h.alloc (npCopy (h.get xRef))).1
        (h.alloc (npCopy (h.get xRef))).2).2.2) =
      intShape (h.get xRef) := by
  cases hf : npIsFortran ((h.alloc (npCopy (h.get xRef))).1.get
      (h.alloc (npCopy (h.get xRef))).2)
  · rw [fortranConvert_of_false _ _ hf]
    dsimp only
    rw [get_alloc_self, intShape_asFortran, get_alloc_copy]
  · rw [fortranConvert_of_true _ _ hf]
    dsimp only
    rw [get_alloc_copy]

/-- _check_array raises exactly when sampling compares (lexicographically)
greater than the shape of X, whatever the mode is. -/
lemma check_array_error_eq (self : ROSLState) (h : Heap) (xRef : Nat) :
    exceptIsError (ROSL._check_array self h xRef).2.2 =
      pyTupleGt self.sampling (intShape (h.get xRef)) := by
  simp only [ROSL._check_array, converted_intShape]
  cases hs : pyTupleGt self.sampling (intShape (h.get xRef)) <;>
    simp [hs, exceptIsError]

/-- _check_array prints either nothing or the conversion message. -/
lemma check_array_events (self : ROSLState) (h : Heap) (xRef : Nat) :
    (ROSL._check_array self h xRef).2.1 = [] ∨
    (ROSL._check_array self h xRef).2.1 =
      [Event.message "Array must be in Fortran-order. Converting now."] := by
  simp only [ROSL._check_array]
  cases hf : npIsFortran ((h.alloc (npCopy (h.get xRef))).1.get
      (h.alloc (npCopy (h.get xRef))).2)
  · rw [fortranConvert_of_false _ _ hf]
    cases hs : pyTupleGt self.sampling _ <;> simp [hs]
  · rw [fortranConvert_of_true _ _ hf]
    cases hs : pyTupleGt self.sampling _ <;> simp [hs]

/-- The heap coming out of _check_array is the one fortranConvert built,
whether or not the sampling check then raises. -/
lemma check_array_heap (self : ROSLState) (h : Heap) (xRef : Nat) :
    (ROSL._check_array self h xRef).1 =
      (fortranConvert (h.alloc (npCopy (h.get xRef))).1
        (h.alloc (npCopy (h.get xRef))).2).1 := by
  simp only [ROSL._check_array]
  split <;> rfl

/-- _check_array only allocates: the incoming heap is a prefix of the
outgoing one. -/
lemma check_array_arrays (self : ROSLState) (h : Heap) (xRef : Nat) :
    ∃ t, (ROSL._check_array self h xRef).1.arrays = h.arrays ++ t := by
  rw [check_array_heap]
  cases hf : npIsFortran ((h.alloc (npCopy (h.get xRef))).1.get
      (h.alloc (npCopy (h.get xRef))).2)
  · rw [fortranConvert_of_false _ _ hf]
    refine ⟨[npCopy (h.get xRef),
      npAsFortran ((h.alloc (npCopy (h.get xRef))).1.get
        (h.alloc (npCopy (h.get xRef))).2)], ?_⟩
    show (h.arrays ++ [npCopy (h.get xRef)]) ++
        [npAsFortran ((h.alloc (npCopy (h.get xRef))).1.get
          (h.alloc (npCopy (h.get xRef))).2)] = _
    rw [List.append_assoc]
    rfl
  · rw [fortranConvert_of_true _ _ hf]
    exact ⟨[npCopy (h.get xRef)], rfl⟩

/-- The working array _check_array hands back is freshly allocated. -/
lemma check_array_ok_ref (self : ROSLState) (h : Heap) (xRef : Nat)
    (r : Nat) (hok : (ROSL._check_array self h xRef).2.2 = Except.ok r) :
    h.arrays.length ≤ r := by
  simp only [ROSL._check_array, converted_intShape] at hok
  cases hs : pyTupleGt self.sampling (intShape (h.get xRef)) <;> rw [hs] at hok
  · simp only [Bool.false_eq_true, if_false] at hok
    have hr : (fortranConvert ((h.alloc (npCopy (h.get xRef))).1)
        ((h.alloc (npCopy (h.get xRef))).2)).2.2 = r := by
      simpa using hok
    cases hf : npIsFortran ((h.alloc (npCopy (h.get xRef))).1.get
        (h.alloc (npCopy (h.get xRef))).2)
    · rw [fortranConvert_of_false _ _ hf] at hr
      rw [← hr]
      simp [Heap.alloc]
    · rw [fortranConvert_of_true _ _ hf] at hr
      rw [← hr]
      simp [Heap.alloc]
  · simp at hok

/-- If the sampling check passes, fit_transform succeeds and returns a
triple of buffer references. -/
lemma fit_transform_ok_of_check_ok (pyrosl : NativeROSL) (self : ROSLState)
    (h : Heap) (xRef : Nat) (h1 : Heap) (evs : List Event) (xr : Nat)
    (hca : ROSL._check_array self h xRef = (h1, evs, Except.ok xr)) :
    ∃ refs, (ROSL.fit_transform pyrosl self h xRef).2.2 = Except.ok refs := by
  simp only [ROSL.fit_transform, hca]
  exact ⟨_, rfl⟩

/-- The output of fit_transform depends on the native routine only through
the data it writes back: the integer R it returns is dropped, so two native
routines that write the same data but report different values of R give
byte-identical wrapper results. -/
lemma fit_transform_native_R_irrelevant (nat1 nat2 : NativeROSL)
    (self : ROSLState) (h : Heap) (xRef : Nat)
    (hagree : ∀ x d a e n f rank reg tol iters mode s1 s2 v,
      (nat1.run x d a e n f rank reg tol iters mode s1 s2 v).2 =
        (nat2.run x d a e n f rank reg tol iters mode s1 s2 v).2) :
    ROSL.fit_transform nat1 self h xRef = ROSL.fit_transform nat2 self h xRef := by
  rcases hca : ROSL._check_array self h xRef with ⟨h1, evs, res⟩
  cases res with
  | error e => simp only [ROSL.fit_transform, hca]
  | ok xr =>
      simp only [ROSL.fit_transform, hca]
      simp only [hagree]

/-- fit_transform writes only to arrays it allocated itself (the private
copy of X and the three output buffers): every array that existed on the
heap before the call is unchanged after it. -/
lemma fit_transform_frame (pyrosl : NativeROSL) (self : ROSLState)
    (h : Heap) (xRef n : Nat) (hn : n < h.arrays.length) :
    (ROSL.fit_transform pyrosl self h xRef).1.get n = h.get n := by
  obtain ⟨t, ht⟩ := check_array_arrays self h xRef
  rcases hca : ROSL._check_array self h xRef with ⟨h1, evs, res⟩
  rw [hca] at ht
  dsimp only at ht
  have hlen : h.arrays.length ≤ h1.arrays.length := by
    rw [ht]
    simp
  have hget1 : h1.get n = h.get n := by
    show h1.arrays.getD n default = h.arrays.getD n default
    rw [ht]
    exact getD_append_left _ _ n hn
  cases res with
  | error e =>
      simp only [ROSL.fit_transform, hca]
      exact hget1
  | ok xr =>
      have hxr : h.arrays.length ≤ xr :=
        check_array_ok_ref self h xRef xr (by rw [hca])
      simp only [ROSL.fit_transform, hca]
      simp only [Heap.alloc_ref, Heap.alloc_length]
      rw [Heap.get_writeData_ne, Heap.get_writeData_ne, Heap.get_writeData_ne,
          Heap.get_writeData_ne, Heap.get_alloc_of_lt, Heap.get_alloc_of_lt,
          Heap.get_alloc_of_lt, hget1]
      all_goals try simp only [Heap.alloc_length]
      all_goals omega

/-- On a non-Fortran input whose sampling check passes, _check_array
converts the private copy, prints the message, and succeeds. -/
lemma check_array_of_nonfortran (self : ROSLState) (h : Heap) (xRef : Nat)
    (hf : npIsFortran (h.get xRef) = false)
    (hs : pyTupleGt self.sampling (intShape (h.get xRef)) = false) :
    ROSL._check_array self h xRef =
      (((h.alloc (npCopy (h.get xRef))).1.alloc (npAsFortran (h.get xRef))).1,
       [Event.message "Array must be in Fortran-order. Converting now."],
       Except.ok ((h.alloc (npCopy (h.get xRef))).1.alloc
         (npAsFortran (h.get xRef))).2) := by
  have hf1 : npIsFortran ((h.alloc (npCopy (h.get xRef))).1.get
      (h.alloc (npCopy (h.get xRef))).2) = false := by
    rw [get_alloc_copy]
    exact hf
  simp only [ROSL._check_array, converted_intShape, hs, Bool.false_eq_true,
    if_false]
  rw [fortranConvert_of_false _ _ hf1, get_alloc_copy]

/-- A heap holding one 1x1 Fortran-ordered zero matrix at reference 0. -/
def heap11 : Heap := ⟨[⟨(1, 1), true, [0]⟩]⟩

/-- A heap holding one 2x2 Fortran-ordered zero matrix at reference 0. -/
def heap22 : Heap := ⟨[⟨(2, 2), true, List.replicate 4 0⟩]⟩

/-- A heap holding one 2x2 C-ordered (row-major) zero matrix at ref 0. -/
def heap22c : Heap := ⟨[⟨(2, 2), false, List.replicate 4 0⟩]⟩

/-- A heap holding one 3x3 Fortran-ordered zero matrix at reference 0. -/
def heap33 : Heap := ⟨[⟨(3, 3), true, List.replicate 9 0⟩]⟩

/-- A heap holding one 5x5 Fortran-ordered zero matrix at reference 0. -/
def heap55 : Heap := ⟨[⟨(5, 5), true, List.replicate 25 0⟩]⟩

/-- The state produced by ROSL(method=full) with default sampling. -/
def stateFull : ROSLState := ⟨"full", 0, (-1, -1), 5, 1, 1, 500, false⟩

/-- A full-mode state whose rank attribute is 0. -/
def stateRank0 : ROSLState := ⟨"full", 0, (-1, -1), 0, 1, 1, 500, false⟩

/-- A subsample-mode state with sampling (1, 10). -/
def stateSub110 : ROSLState := ⟨"subsample", 1, (1, 10), 5, 1, 1, 500, false⟩

/-- A full-mode state with sampling (10, 10). -/
def stateFullBigSampling : ROSLState := ⟨"full", 0, (10, 10), 5, 1, 1, 500, false⟩

/-- A full-mode state whose iteration cap is 1. -/
def stateIters1 : ROSLState := ⟨"full", 0, (-1, -1), 5, 1, 1, 1, false⟩

/-- A native routine that ignores its inputs, reports R = 9 and writes the
single entry 7 through each of the four array pointers. -/
def nativeScribble : NativeROSL :=
  ⟨fun _ _ _ _ _ _ _ _ _ _ _ _ _ _ => (9, [7], [7], [7], [7])⟩

/-- Claim C1 (refuting the R part, confirming the shape part): on a valid
1x1 input with the default full-mode configuration, fit_transform succeeds
and the three buffers D, alpha, E (references 2, 3, 4) all have the shape
of X; but the wrapper output is identical whether the native routine
reports R = 3 or R = 7, because the estimated rank R is dropped by the
return statement (the code returns only D, alpha, E although its own
docstring promises (R, D, alpha, E)). -/
theorem c1_rank_not_returned :
    (ROSL.fit_transform (nativeReport 3) stateFull heap11 0).2.2 =
      Except.ok (2, 3, 4) ∧
    ((ROSL.fit_transform (nativeReport 3) stateFull heap11 0).1.get 2).shape =
      (heap11.get 0).shape ∧
    ((ROSL.fit_transform (nativeReport 3) stateFull heap11 0).1.get 3).shape =
      (heap11.get 0).shape ∧
    ((ROSL.fit_transform (nativeReport 3) stateFull heap11 0).1.get 4).shape =
      (heap11.get 0).shape ∧
    ROSL.fit_transform (nativeReport 3) stateFull heap11 0 =
      ROSL.fit_transform (nativeReport 7) stateFull heap11 0 := by
  decide

/-- Claim C2, counterexample: a configuration whose rank estimate is 0 is
accepted without any error, both at construction and by a subsequent
decompose call, contradicting the claim that non-positive rank raises
InvalidConfiguration before any iteration. -/
theorem c2_counterexample :
    ROSL.init "full" (-1, -1) 0 1 1 500 false = Except.ok stateRank0 ∧
    (ROSL.fit_transform (nativeReport 0) stateRank0 heap33 0).2.2 =
      Except.ok (2, 3, 4) := by
  decide

/-- Claim C2, amended: the constructor performs no validation of rank, reg,
tol or iters: every value of these, zero and negative values included, is
accepted (so, in particular, a rank estimate equal to min(n_samples,
n_features) does not raise an error, which is the part of the claim that
holds). -/
theorem c2_no_scalar_validation :
    (∀ (sampling : Int × Int) (rank : Int) (reg tol : ℚ) (iters : Int)
        (verbose : Bool),
      ROSL.init "full" sampling rank reg tol iters verbose =
        Except.ok ⟨"full", 0, sampling, rank, reg, tol, iters, verbose⟩) ∧
    (∀ (s1 s2 rank : Int) (reg tol : ℚ) (iters : Int) (verbose : Bool),
      s1 ≠ -1 → s2 ≠ -1 →
      ROSL.init "subsample" (s1, s2) rank reg tol iters verbose =
        Except.ok ⟨"subsample", 1, (s1, s2), rank, reg, tol, iters, verbose⟩) := by
  constructor
  · intro sampling rank reg tol iters verbose
    rfl
  · intro s1 s2 rank reg tol iters verbose h1 h2
    simp [ROSL.init, modesLookup, modes, h1, h2]
    rfl

/-- Witness for c2_no_scalar_validation at a concrete non-positive
configuration. -/
theorem c2_no_scalar_validation_witness :
    ROSL.init "subsample" (2, 3) 0 1 1 0 false =
      Except.ok ⟨"subsample", 1, (2, 3), 0, 1, 1, 0, false⟩ :=
  c2_no_scalar_validation.2 2 3 0 1 1 0 false (by decide) (by decide)

/-- Claim C3 (code bug): in subsample mode with sampling (1, 10) on a 5x5
matrix, the second sampling dimension (10) exceeds n_features (5), yet no
error is raised and the native routine is invoked: the source compares
sampling > x.shape, which in Python 2 is a lexicographic tuple comparison,
and (1, 10) < (5, 5) lexicographically. -/
theorem c3_oversized_sampling_not_caught :
    ROSL.init "subsample" (1, 10) 5 1 1 500 false = Except.ok stateSub110 ∧
    (ROSL.fit_transform (nativeReport 0) stateSub110 heap55 0).2.2 =
      Except.ok (2, 3, 4) ∧
    Event.nativeCall ∈
      (ROSL.fit_transform (nativeReport 0) stateSub110 heap55 0).2.1 := by
  decide

/-- Claim C4, counterexample: in full mode the sampling values are not
ignored: with sampling (10, 10) and a 2x2 matrix, construction succeeds but
the decompose call raises the sampling ValueError even though the mode is
full. -/
theorem c4_counterexample :
    ROSL.init "full" (10, 10) 5 1 1 500 false =
      Except.ok stateFullBigSampling ∧
    (ROSL.fit_transform (nativeReport 0) stateFullBigSampling heap22 0).2.2 =
      Except.error (PyError.valueError
        "sampling is greater than the dimensions of X") := by
  decide

/-- Claim C4, amended: the sampling comparison of _check_array runs in
every mode (the state, its method and mode fields included, is universally
quantified here and the error condition does not depend on them): the call
raises exactly when sampling compares lexicographically greater than the
shape of X. -/
theorem c4_sampling_checked_in_every_mode (self : ROSLState) (h : Heap)
    (xRef : Nat) :
    exceptIsError (ROSL._check_array self h xRef).2.2 =
      pyTupleGt self.sampling (intShape (h.get xRef)) :=
  check_array_error_eq self h xRef

/-- Claim C5, counterexample: with the iteration cap set to 1, the wrapper
output is identical whether the native routine reports status 0 or status
1, so no non-convergence indicator reaches the caller; the result is
nevertheless returned without an exception. -/
theorem c5_no_convergence_indicator :
    ROSL.fit_transform (nativeReport 0) stateIters1 heap33 0 =
      ROSL.fit_transform (nativeReport 1) stateIters1 heap33 0 ∧
    (ROSL.fit_transform (nativeReport 0) stateIters1 heap33 0).2.2 =
      Except.ok (2, 3, 4) := by
  decide

/-- Claim C5, amended: when the sampling check passes, fit_transform always
returns a result (never an exception, whatever the native routine does or
reports), but the caller cannot detect non-convergence: two native routines
that write the same data and differ only in the returned integer R produce
identical wrapper output, because R is discarded. -/
theorem c5_result_returned_but_R_discarded (nat1 nat2 : NativeROSL)
    (self : ROSLState) (h : Heap) (xRef : Nat)
    (hagree : ∀ x d a e n f rank reg tol iters mode s1 s2 v,
      (nat1.run x d a e n f rank reg tol iters mode s1 s2 v).2 =
        (nat2.run x d a e n f rank reg tol iters mode s1 s2 v).2)
    (hs : pyTupleGt self.sampling (intShape (h.get xRef)) = false) :
    (∃ refs, (ROSL.fit_transform nat1 self h xRef).2.2 = Except.ok refs) ∧
    ROSL.fit_transform nat1 self h xRef =
      ROSL.fit_transform nat2 self h xRef := by
  constructor
  · have herr : exceptIsError (ROSL._check_array self h xRef).2.2 = false := by
      rw [check_array_error_eq]
      exact hs
    rcases hca : ROSL._check_array self h xRef with ⟨h1, evs, res⟩
    cases res with
    | error e =>
        rw [hca] at herr
        simp [exceptIsError] at herr
    | ok xr =>
        exact fit_transform_ok_of_check_ok nat1 self h xRef h1 evs xr hca
  · exact fit_transform_native_R_irrelevant nat1 nat2 self h xRef hagree

/-- Witness for c5_result_returned_but_R_discarded at the iters = 1
configuration, with native routines reporting 0 and 500. -/
theorem c5_result_returned_witness :
    (∃ refs, (ROSL.fit_transform (nativeReport 0) stateIters1 heap33 0).2.2 =
      Except.ok refs) ∧
    ROSL.fit_transform (nativeReport 0) stateIters1 heap33 0 =
      ROSL.fit_transform (nativeReport 500) stateIters1 heap33 0 :=
  c5_result_returned_but_R_discarded (nativeReport 0) (nativeReport 500)
    stateIters1 heap33 0 (fun _ _ _ _ _ _ _ _ _ _ _ _ _ _ => rfl) (by decide)

/-- Claim C6: constructing with method subsample while sampling is left at
its unset default (-1, -1) raises ValueError at construction time; no
state object is produced. -/
theorem c6_subsample_unset_sampling_raises :
    ROSL.init "subsample" (-1, -1) 5 1 1 500 false =
      Except.error (PyError.valueError
        "method is set to subsample but sampling is not set.") := by
  decide

/-- Claim C7 (code bug): for a method string that is neither full nor
subsample, construction raises an error before anything else happens, but
it is a TypeError coming from the string-plus-list expression in the raise
statement, not the intended ValueError naming the valid modes. -/
theorem c7_invalid_method_raises_type_error :
    ROSL.init "banana" (-1, -1) 5 1 1 500 false =
      Except.error (PyError.typeError
        "cannot concatenate str and list objects") := by
  decide

/-- Claim C8: whenever fit_transform raises, the event trace contains
neither an output-buffer allocation nor a native call: the error was
raised before D, alpha, E were allocated and before the native routine was
invoked. -/
theorem c8_validation_error_precedes_outputs (pyrosl : NativeROSL)
    (self : ROSLState) (h : Heap) (xRef : Nat) (e : PyError)
    (herr : (ROSL.fit_transform pyrosl self h xRef).2.2 = Except.error e) :
    Event.allocOutput ∉ (ROSL.fit_transform pyrosl self h xRef).2.1 ∧
    Event.nativeCall ∉ (ROSL.fit_transform pyrosl self h xRef).2.1 := by
  rcases hca : ROSL._check_array self h xRef with ⟨h1, evs, res⟩
  cases res with
  | ok xr =>
      obtain ⟨refs, hok⟩ :=
        fit_transform_ok_of_check_ok pyrosl self h xRef h1 evs xr hca
      rw [hok] at herr
      exact absurd herr (by simp)
  | error e2 =>
      have hev : (ROSL.fit_transform pyrosl self h xRef).2.1 = evs := by
        simp only [ROSL.fit_transform, hca]
      rcases check_array_events self h xRef with hevs | hevs <;>
        rw [hca] at hevs <;> dsimp only at hevs <;> rw [hev, hevs] <;>
        exact ⟨by simp, by simp⟩

/-- Witness for c8_validation_error_precedes_outputs at the full-mode
oversized-sampling configuration on a 2x2 matrix. -/
theorem c8_validation_error_witness :
    (ROSL.fit_transform (nativeReport 0) stateFullBigSampling heap22 0).2.2 =
      Except.error (PyError.valueError
        "sampling is greater than the dimensions of X") ∧
    Event.allocOutput ∉
      (ROSL.fit_transform (nativeReport 0) stateFullBigSampling heap22 0).2.1 ∧
    Event.nativeCall ∉
      (ROSL.fit_transform (nativeReport 0) stateFullBigSampling heap22 0).2.1 :=
  ⟨by decide, c8_validation_error_precedes_outputs (nativeReport 0)
    stateFullBigSampling heap22 0
    (PyError.valueError "sampling is greater than the dimensions of X")
    (by decide)⟩

/-- Claim C9: a decompose call never modifies the array the caller passed
in: the wrapper copies X before converting it and hands the native routine
only the copy and the freshly allocated buffers, so whatever the native
routine writes, the array at the original reference is unchanged when the
call returns. -/
theorem c9_caller_array_unchanged (pyrosl : NativeROSL) (self : ROSLState)
    (h : Heap) (xRef : Nat) (hx : xRef < h.arrays.length) :
    (ROSL.fit_transform pyrosl self h xRef).1.get xRef = h.get xRef :=
  fit_transform_frame pyrosl self h xRef xRef hx

/-- Witness for c9_caller_array_unchanged: even a native routine that
scribbles over every array it receives leaves the caller's X intact. -/
theorem c9_caller_array_unchanged_witness :
    0 < heap33.arrays.length ∧
    (ROSL.fit_transform nativeScribble stateFull heap33 0).1.get 0 =
      heap33.get 0 :=
  ⟨by decide,
    c9_caller_array_unchanged nativeScribble stateFull heap33 0 (by decide)⟩

/-- Claim C10: on an input that is not Fortran-ordered (and whose sampling
check passes), _check_array succeeds, the working array it returns is
Fortran-ordered, the diagnostic message is printed, and fit_transform
proceeds to a successful decomposition: row-major callers get a conversion,
not an error. -/
theorem c10_row_major_converted (pyrosl : NativeROSL) (self : ROSLState)
    (h : Heap) (xRef : Nat)
    (hf : npIsFortran (h.get xRef) = false)
    (hs : pyTupleGt self.sampling (intShape (h.get xRef)) = false) :
    (∃ r, (ROSL._check_array self h xRef).2.2 = Except.ok r ∧
      npIsFortran ((ROSL._check_array self h xRef).1.get r) = true) ∧
    Event.message "Array must be in Fortran-order. Converting now." ∈
      (ROSL._check_array self h xRef).2.1 ∧
    ∃ refs, (ROSL.fit_transform pyrosl self h xRef).2.2 = Except.ok refs := by
  have hca := check_array_of_nonfortran self h xRef hf hs
  refine ⟨⟨((h.alloc (npCopy (h.get xRef))).1.alloc
      (npAsFortran (h.get xRef))).2, ?_, ?_⟩, ?_, ?_⟩
  · rw [hca]
  · rw [hca]
    dsimp only
    rw [get_alloc_self]
    rfl
  · rw [hca]
    simp
  · exact fit_transform_ok_of_check_ok pyrosl self h xRef _ _ _ hca

/-- Witness for c10_row_major_converted on a C-ordered 2x2 matrix. -/
theorem c10_row_major_converted_witness :
    npIsFortran (heap22c.get 0) = false ∧
    pyTupleGt stateFull.sampling (intShape (heap22c.get 0)) = false ∧
    ((∃ r, (ROSL._check_array stateFull heap22c 0).2.2 = Except.ok r ∧
      npIsFortran ((ROSL._check_array stateFull heap22c 0).1.get r) = true) ∧
    Event.message "Array must be in Fortran-order. Converting now." ∈
      (ROSL._check_array stateFull heap22c 0).2.1 ∧
    ∃ refs, (ROSL.fit_transform (nativeReport 0) stateFull heap22c 0).2.2 =
      Except.ok refs) :=
  ⟨by decide, by decide,
    c10_row_major_converted (nativeReport 0) stateFull heap22c 0
      (by decide) (by decide)⟩
